import Mathlib

/-!
Shallow embedding of `tutorials/classy_model.ipynb` (Classy Vision custom-model
tutorial). The notebook defines a model class `MyModel` with an
`AdaptiveAvgPool2d((1, 1))` layer followed by `nn.Linear(3, num_classes)`, a
`from_config` classmethod reading `config["num_classes"]`, and uses the
framework's `register_model` / `build_model` registry and `ClassificationTask`.
Tensors are embedded as nested lists of rationals; Python errors as an
explicit error type; PyTorch's random parameter initialisation as an explicit
seed stream `Seed` supplying the entries of freshly created layers.
-/

/-- Python exceptions that the embedded operations can raise. -/
inductive PyError where
  | keyError
  | typeError
  | runtimeError
  | assertionError
deriving DecidableEq, Repr

/-- A primitive configuration value: the tutorial's configs hold strings and
integers. -/
inductive ConfigValue where
  | str (s : String)
  | int (n : Int)
deriving DecidableEq, Repr

/-- A configuration mapping: string keys to primitive values (a Python dict,
embedded as an association list with the first binding of a key visible). -/
abbrev Config := List (String × ConfigValue)

/-- Python dict lookup `config[key]` as an Option: `none` models a KeyError. -/
def Config.get? : Config → String → Option ConfigValue
  | [], _ => none
  | (k, v) :: rest, key => if k = key then some v else Config.get? rest key

/-- A 2-D tensor (matrix): rows of rationals. -/
abbrev Mat := List (List ℚ)

/-- A 3-D tensor: channels of planes. -/
abbrev Tensor3 := List Mat

/-- A 4-D tensor: a batch of samples, each channels × height × width. -/
abbrev Tensor4 := List Tensor3

/-- Predicate: `m` is an `h × w` matrix. -/
abbrev MatShape (m : Mat) (h w : Nat) : Prop :=
  m.length = h ∧ ∀ row ∈ m, row.length = w

/-- Predicate: `t` is a `c × h × w` tensor. -/
abbrev T3Shape (t : Tensor3) (c h w : Nat) : Prop :=
  t.length = c ∧ ∀ p ∈ t, MatShape p h w

/-- Predicate: `x` is an `n × c × h × w` tensor. -/
abbrev T4Shape (x : Tensor4) (n c h w : Nat) : Prop :=
  x.length = n ∧ ∀ s ∈ x, T3Shape s c h w

/-- First index of adaptive-pooling window `i` of `out` over an axis of
length `size`: `floor (i * size / out)` (PyTorch's formula). -/
def adaptiveStart (i size out : Nat) : Nat := i * size / out

/-- One-past-last index of adaptive-pooling window `i`:
`ceil ((i + 1) * size / out)` (PyTorch's formula). -/
def adaptiveEnd (i size out : Nat) : Nat := ((i + 1) * size + out - 1) / out

/-- Mean of the sub-rectangle of rows `[r0, r1)` and columns `[c0, c1)` of a
plane. -/
def sliceMean (plane : Mat) (r0 r1 c0 c1 : Nat) : ℚ :=
  let cells := ((plane.drop r0).take (r1 - r0)).map fun row => (row.drop c0).take (c1 - c0)
  (cells.map List.sum).sum / (((r1 - r0) * (c1 - c0) : Nat) : ℚ)

/-- The layer `nn.AdaptiveAvgPool2d`: holds the requested output size. -/
structure AdaptiveAvgPool2d where
  output_size : Nat × Nat
deriving DecidableEq, Repr

/-- Forward pass of `nn.AdaptiveAvgPool2d` on an `N × C × H × W` batch: each
output cell is the mean of its adaptive window of the input plane. -/
def AdaptiveAvgPool2d.forward (pool : AdaptiveAvgPool2d) (x : Tensor4) : Tensor4 :=
  x.map fun sample => sample.map fun plane =>
    let h := plane.length
    let w := (plane.headD []).length
    (List.range pool.output_size.1).map fun i =>
      (List.range pool.output_size.2).map fun j =>
        sliceMean plane (adaptiveStart i h pool.output_size.1)
          (adaptiveEnd i h pool.output_size.1)
          (adaptiveStart j w pool.output_size.2)
          (adaptiveEnd j w pool.output_size.2)

/-- The layer `nn.Linear`: the recorded feature counts and the learnable parameters. -/
structure Linear where
  in_features : Int
  out_features : Int
  weight : Mat
  bias : List ℚ
deriving DecidableEq, Repr

/-- The source of the otherwise-random initial parameter values PyTorch draws
when a layer is created: entry `k` of the stream initialises the `k`-th
scalar parameter of the layer. -/
abbrev Seed := Nat → ℚ

/-- The constructor `nn.Linear(in_features, out_features)`: records the feature counts and
draws an `out × in` weight matrix and an `out` bias vector from the seed
stream. -/
def nnLinear (seed : Seed) (inF outF : Int) : Linear where
  in_features := inF
  out_features := outF
  weight := (List.range outF.toNat).map fun i =>
    (List.range inF.toNat).map fun j => seed (i * inF.toNat + j)
  bias := (List.range outF.toNat).map fun i => seed (inF.toNat * outF.toNat + i)

/-- Dot product of two vectors (zero-extended, as `zipWith` truncates). -/
def dot (a b : List ℚ) : ℚ := (List.zipWith (fun p q => p * q) a b).sum

/-- Forward pass of `nn.Linear` on an `N × F` batch: PyTorch requires
`F = in_features` (else the matmul raises a RuntimeError) and returns
`x W^T + b` row by row. -/
def Linear.forward (l : Linear) (x : Mat) : Except PyError Mat :=
  if x.all fun row => (row.length : Int) == l.in_features then
    .ok (x.map fun row => List.zipWith (fun wrow b => dot wrow row + b) l.weight l.bias)
  else .error .runtimeError

/-- The tutorial's `MyModel`: an average-pooling layer and a fully connected
layer. -/
structure MyModel where
  avgpool : AdaptiveAvgPool2d
  fc : Linear
deriving DecidableEq, Repr

/-- The constructor `MyModel.__init__(self, num_classes)`: `self.avgpool =
nn.AdaptiveAvgPool2d((1, 1))`; `num_channels = 3`; `self.fc =
nn.Linear(num_channels, num_classes)`. -/
def MyModel.init (seed : Seed) (num_classes : Int) : MyModel :=
  let num_channels : Int := 3
  { avgpool := { output_size := (1, 1) }
    fc := nnLinear seed num_channels num_classes }

/-- The call `MyModel(num_classes=v)` on a configuration value: an integer is
passed to `__init__`; a string makes `nn.Linear` raise a TypeError. -/
def MyModel.callCtor (seed : Seed) (v : ConfigValue) : Except PyError MyModel :=
  match v with
  | .int n => .ok (MyModel.init seed n)
  | .str _ => .error .typeError

/-- The classmethod `MyModel.from_config(cls, config)`: `return
cls(num_classes=config["num_classes"])` — a dict lookup (KeyError when the
key is absent) followed by the constructor call. -/
def MyModel.from_config (seed : Seed) (config : Config) : Except PyError MyModel :=
  match Config.get? config "num_classes" with
  | none => .error .keyError
  | some v => MyModel.callCtor seed v

/-- The reshape `out.reshape(out.size(0), -1)`: keep the batch dimension, flatten each
sample's remaining dimensions into one row. -/
def Tensor4.reshape2 (x : Tensor4) : Mat :=
  x.map fun sample => (sample.map fun plane => plane.flatten).flatten

/-- The method `MyModel.forward(self, x)`: `out = self.avgpool(x)`; `out =
out.reshape(out.size(0), -1)`; `out = self.fc(out)`; `return out`. -/
def MyModel.forward (m : MyModel) (x : Tensor4) : Except PyError Mat :=
  m.fc.forward (Tensor4.reshape2 (m.avgpool.forward x))

/-- The architecture of a model: its layers' configured sizes and the shapes
of its parameter tensors, without the parameter values. -/
structure ModelArch where
  pool_output_size : Nat × Nat
  fc_in_features : Int
  fc_out_features : Int
  fc_weight_row_lengths : List Nat
  fc_bias_length : Nat
deriving DecidableEq, Repr

/-- Extract the architecture of a `MyModel`. -/
def MyModel.arch (m : MyModel) : ModelArch where
  pool_output_size := m.avgpool.output_size
  fc_in_features := m.fc.in_features
  fc_out_features := m.fc.out_features
  fc_weight_row_lengths := m.fc.weight.map List.length
  fc_bias_length := m.fc.bias.length

/-- A model instance as returned by the registry; the tutorial registers the
single class `MyModel`. -/
inductive ModelInstance where
  | myModel (m : MyModel)
deriving DecidableEq, Repr

/-- The check `isinstance(·, MyModel)`. -/
def ModelInstance.isMyModel : ModelInstance → Bool
  | .myModel _ => true

/-- A registered model class, as the registry stores it: its `from_config`
classmethod. -/
abbrev ModelBuilder := Seed → Config → Except PyError ModelInstance

/-- Modelled from the spec: the framework's `register_model(name)` decorator
(not under src/) adds a name-to-constructor binding to the registry's lookup
table. -/
def register_model (name : String) (builder : ModelBuilder)
    (registry : List (String × ModelBuilder)) : List (String × ModelBuilder) :=
  (name, builder) :: registry

/-- The registry state after the tutorial's `@register_model("my_model")`
decoration of `MyModel`. -/
def MODEL_REGISTRY : List (String × ModelBuilder) :=
  register_model "my_model"
    (fun seed config => (MyModel.from_config seed config).map ModelInstance.myModel) []

/-- Lookup of a registered name in the registry table. -/
def lookupBuilder : List (String × ModelBuilder) → String → Option ModelBuilder
  | [], _ => none
  | (k, b) :: rest, name => if k = name then some b else lookupBuilder rest name

/-- Modelled from the spec: the framework's `build_model(config)` (not under
src/) reads `config["name"]`, looks the name up in the registry and calls the
selected class's `from_config` on the whole mapping; a missing key is a
KeyError and an unregistered name fails the registry's assertion. -/
def build_model (seed : Seed) (config : Config) : Except PyError ModelInstance :=
  match Config.get? config "name" with
  | none => .error .keyError
  | some (.int _) => .error .assertionError
  | some (.str name) =>
    match lookupBuilder MODEL_REGISTRY name with
    | none => .error .assertionError
    | some b => b seed config

/-- Modelled from the spec: the framework's `ClassificationTask` (not under
src/), reduced to the one field the tutorial touches — the model set on it. -/
structure ClassificationTask where
  model : Option ModelInstance := none
deriving DecidableEq, Repr

/-- Modelled from the spec: `ClassificationTask.set_model` stores the model on
the task. -/
def ClassificationTask.set_model (task : ClassificationTask) (m : ModelInstance) :
    ClassificationTask :=
  { task with model := some m }

/-- The tutorial's `model_config` dict:
`{"name": "my_model", "num_classes": 3}`. -/
def model_config : Config :=
  [("name", ConfigValue.str "my_model"), ("num_classes", ConfigValue.int 3)]

/-! ## Helper lemmas -/

lemma flatten_map_singleton {α β : Type} (f : α → β) (l : List α) :
    (l.map fun a => [f a]).flatten = l.map f := by
  induction l with
  | nil => rfl
  | cons a t ih => simp [ih]

/-- With output size `(1, 1)`, pooling then `reshape(N, -1)` turns each sample
into the row of its per-channel plane means. -/
lemma reshape2_pool1 (x : Tensor4) :
    Tensor4.reshape2 (AdaptiveAvgPool2d.forward { output_size := (1, 1) } x) =
      x.map fun sample => sample.map fun plane =>
        sliceMean plane 0 plane.length 0 (plane.headD []).length := by
  have hr1 : List.range 1 = [0] := rfl
  unfold Tensor4.reshape2 AdaptiveAvgPool2d.forward
  simp only [List.map_map, Function.comp_def, hr1, List.map_cons, List.map_nil,
    List.flatten_cons, List.flatten_nil, List.append_nil, adaptiveStart, adaptiveEnd,
    Nat.zero_mul, Nat.zero_add, Nat.zero_div, Nat.one_mul, Nat.add_sub_cancel, Nat.div_one]
  refine List.map_congr_left fun s _ => ?_
  exact flatten_map_singleton _ s

/-- Evaluation of `MyModel.forward` of a freshly constructed model, with the pooling and the
reshape evaluated. -/
lemma forward_init_eq (seed : Seed) (n : Int) (x : Tensor4) :
    (MyModel.init seed n).forward x =
      (nnLinear seed 3 n).forward
        (x.map fun sample => sample.map fun plane =>
          sliceMean plane 0 plane.length 0 (plane.headD []).length) := by
  show (nnLinear seed 3 n).forward
      (Tensor4.reshape2 (AdaptiveAvgPool2d.forward { output_size := (1, 1) } x)) = _
  rw [reshape2_pool1]

/-- The fc layer of a fresh `MyModel` succeeds on rows of length 3 and returns
one score per class for each row. -/
lemma linear_forward_init_ok (seed : Seed) (n : Int) (v : Mat)
    (hrows : ∀ row ∈ v, row.length = 3) :
    ∃ y, (nnLinear seed 3 n).forward v = .ok y ∧ MatShape y v.length n.toNat := by
  unfold Linear.forward nnLinear
  have hc : (v.all fun row => (row.length : Int) == 3) = true := by
    rw [List.all_eq_true]
    intro row hr
    simp [hrows row hr]
  rw [hc]
  simp only [if_true]
  refine ⟨_, rfl, by simp, ?_⟩
  intro row hr
  simp only [List.mem_map] at hr
  obtain ⟨r0, _, rfl⟩ := hr
  simp [List.length_zipWith]

/-- The fc layer of a fresh `MyModel` raises a RuntimeError when some row has
length other than 3. -/
lemma linear_forward_init_err (seed : Seed) (n : Int) (v : Mat) (r : List ℚ)
    (hr : r ∈ v) (hlen : r.length ≠ 3) :
    (nnLinear seed 3 n).forward v = .error .runtimeError := by
  unfold Linear.forward nnLinear
  cases hall : v.all fun row => (row.length : Int) == 3 with
  | false => simp [hall]
  | true =>
    exfalso
    rw [List.all_eq_true] at hall
    have h3 := hall r hr
    simp only [beq_iff_eq] at h3
    exact hlen (by exact_mod_cast h3)

/-- The architecture of a freshly constructed `MyModel` does not depend on the
seed, only on `num_classes`. -/
lemma arch_init (seed : Seed) (n : Int) :
    (MyModel.init seed n).arch =
      { pool_output_size := (1, 1)
        fc_in_features := 3
        fc_out_features := n
        fc_weight_row_lengths := List.replicate n.toNat 3
        fc_bias_length := n.toNat } := by
  unfold MyModel.init MyModel.arch nnLinear
  simp [List.map_map, Function.comp_def, List.map_const', List.length_map, List.length_range]

/-- A fixed seed stream used in concrete witnesses. -/
def seedW : Seed := fun k => (k : ℚ)

/-- The batch of shape `1 × 3 × 200 × 200` (all zeros) standing for the
tutorial's `torch.rand((1, 3, 200, 200))`. -/
def x200 : Tensor4 := [List.replicate 3 (List.replicate 200 (List.replicate 200 (0 : ℚ)))]

lemma x200_shape : T4Shape x200 1 3 200 200 := by
  refine ⟨rfl, ?_⟩
  intro s hs
  unfold x200 at hs
  rw [List.mem_singleton] at hs
  subst hs
  refine ⟨by simp, ?_⟩
  intro p hp
  rw [List.eq_of_mem_replicate hp]
  refine ⟨by rw [List.length_replicate], ?_⟩
  intro r hr
  rw [List.eq_of_mem_replicate hr, List.length_replicate]

/-- A batch of shape `1 × 3 × 1 × 1` used in concrete witnesses. -/
def xW3 : Tensor4 := [[[[1]], [[2]], [[3]]]]

/-- A batch of shape `1 × 2 × 1 × 1` (wrong channel count) used in concrete
witnesses. -/
def xW2 : Tensor4 := [[[[1]], [[2]]]]

/-! ## Claims -/

/-- C1: for every configuration mapping that contains the key
`"num_classes"`, `MyModel.from_config` returns exactly the result of the
constructor call `MyModel(num_classes=config["num_classes"])`: a direct field
lookup plus a constructor call, and no other logic. -/
theorem C1_from_config_is_lookup_then_ctor (seed : Seed) (c : Config) (v : ConfigValue)
    (h : Config.get? c "num_classes" = some v) :
    MyModel.from_config seed c = MyModel.callCtor seed v := by
  unfold MyModel.from_config
  rw [h]

/-- Witness for C1 at the tutorial's `model_config`. -/
theorem C1_witness :
    MyModel.from_config seedW model_config = MyModel.callCtor seedW (ConfigValue.int 3) :=
  C1_from_config_is_lookup_then_ctor seedW model_config (ConfigValue.int 3) (by decide)

/-- C2: `MyModel.forward` equals the composition of its two sub-operations
only: adaptive average pooling to one value per channel (output size
`(1, 1)`), then the fc projection of the flattened pooled values. -/
theorem C2_forward_is_pool_then_fc (seed : Seed) (n : Int) (x : Tensor4) :
    (MyModel.init seed n).forward x =
      (nnLinear seed 3 n).forward
        (Tensor4.reshape2 (AdaptiveAvgPool2d.forward { output_size := (1, 1) } x)) := rfl

/-- C3: with `MyModel` registered under `"my_model"`, `build_model` on a
mapping whose `"name"` field is `"my_model"` and whose `"num_classes"` field
is an integer returns a `MyModel` instance, constructed via
`MyModel.from_config` on that mapping. -/
theorem C3_build_model_roundtrip (seed : Seed) (c : Config) (n : Int)
    (hname : Config.get? c "name" = some (ConfigValue.str "my_model"))
    (hnum : Config.get? c "num_classes" = some (ConfigValue.int n)) :
    build_model seed c = .ok (ModelInstance.myModel (MyModel.init seed n)) ∧
      MyModel.from_config seed c = .ok (MyModel.init seed n) := by
  have hfc : MyModel.from_config seed c = .ok (MyModel.init seed n) := by
    unfold MyModel.from_config
    rw [hnum]
    rfl
  refine ⟨?_, hfc⟩
  unfold build_model
  rw [hname]
  show (MyModel.from_config seed c).map ModelInstance.myModel = _
  rw [hfc]
  rfl

/-- Witness for C3 at a concrete config with a spare field. -/
theorem C3_witness :
    build_model seedW
        [("name", ConfigValue.str "my_model"), ("num_classes", ConfigValue.int 7),
          ("spare", ConfigValue.int 0)]
        = .ok (ModelInstance.myModel (MyModel.init seedW 7)) ∧
      MyModel.from_config seedW
        [("name", ConfigValue.str "my_model"), ("num_classes", ConfigValue.int 7),
          ("spare", ConfigValue.int 0)]
        = .ok (MyModel.init seedW 7) :=
  C3_build_model_roundtrip seedW
    [("name", ConfigValue.str "my_model"), ("num_classes", ConfigValue.int 7),
      ("spare", ConfigValue.int 0)]
    7 (by decide) (by decide)

/-- C4: the construction consumes only `"num_classes"`: any two configuration
mappings agreeing on `"num_classes"` (under any seeds) yield models of
identical architecture — same layers and same parameter shapes; other keys
have no influence. -/
theorem C4_from_config_depends_only_on_num_classes (seed1 seed2 : Seed) (c1 c2 : Config)
    (h : Config.get? c1 "num_classes" = Config.get? c2 "num_classes") :
    (MyModel.from_config seed1 c1).map MyModel.arch =
      (MyModel.from_config seed2 c2).map MyModel.arch := by
  unfold MyModel.from_config
  rw [h]
  cases Config.get? c2 "num_classes" with
  | none => rfl
  | some v =>
    cases v with
    | str s => rfl
    | int n => simp only [MyModel.callCtor, Except.map, arch_init]

/-- Witness for C4 at two configs differing in every other key. -/
theorem C4_witness :
    (MyModel.from_config seedW
        [("num_classes", ConfigValue.int 4), ("extra", ConfigValue.str "a")]).map MyModel.arch =
      (MyModel.from_config (fun _ => 1)
        [("other", ConfigValue.int 9), ("num_classes", ConfigValue.int 4)]).map MyModel.arch :=
  C4_from_config_depends_only_on_num_classes seedW (fun _ => 1)
    [("num_classes", ConfigValue.int 4), ("extra", ConfigValue.str "a")]
    [("other", ConfigValue.int 9), ("num_classes", ConfigValue.int 4)] (by decide)

/-- C5: the computation graph is fixed and deterministic: for a given model,
two invocations of `MyModel.forward` on the same input batch produce the same
output batch. -/
theorem C5_forward_deterministic (m : MyModel) (x1 x2 : Tensor4) (h : x1 = x2) :
    MyModel.forward m x1 = MyModel.forward m x2 := by
  rw [h]

/-- Witness for C5 at a concrete model and batch. -/
theorem C5_witness :
    MyModel.forward (MyModel.init seedW 2) xW3 = MyModel.forward (MyModel.init seedW 2) xW3 :=
  C5_forward_deterministic (MyModel.init seedW 2) xW3 xW3 rfl

/-- C6: the tutorial's happy path: setting the freshly constructed
`MyModel(num_classes=1000)` on a `ClassificationTask` succeeds, `build_model`
on `{"name": "my_model", "num_classes": 3}` succeeds and yields a `MyModel`
instance (the `isinstance` assertion holds), and inference on any batch of
shape `(1, 3, 200, 200)` succeeds. -/
theorem C6_tutorial_happy_path (seed : Seed) :
    (ClassificationTask.set_model { model := none }
        (ModelInstance.myModel (MyModel.init seed 1000))).model
      = some (ModelInstance.myModel (MyModel.init seed 1000)) ∧
    build_model seed model_config = .ok (ModelInstance.myModel (MyModel.init seed 3)) ∧
    (ModelInstance.myModel (MyModel.init seed 3)).isMyModel = true ∧
    ∀ x : Tensor4, T4Shape x 1 3 200 200 →
      ∃ y, (MyModel.init seed 3).forward x = .ok y ∧ MatShape y 1 3 := by
  refine ⟨rfl, ?_, rfl, ?_⟩
  · have hname : Config.get? model_config "name" = some (ConfigValue.str "my_model") := rfl
    unfold build_model
    rw [hname]
    show (MyModel.from_config seed model_config).map ModelInstance.myModel = _
    have hfc : MyModel.from_config seed model_config = .ok (MyModel.init seed 3) := rfl
    rw [hfc]
    rfl
  · intro x hx
    rw [forward_init_eq]
    obtain ⟨y, hy, hl, hrows⟩ := linear_forward_init_ok seed 3
      (x.map fun sample => sample.map fun plane =>
        sliceMean plane 0 plane.length 0 (plane.headD []).length)
      (by intro row hrow
          rw [List.mem_map] at hrow
          obtain ⟨s, hs, rfl⟩ := hrow
          rw [List.length_map]
          exact (hx.2 s hs).1)
    refine ⟨y, hy, ?_, ?_⟩
    · rw [hl, List.length_map, hx.1]
    · intro r hr
      rw [hrows r hr]
      rfl

/-- Witness for C6: inference at the concrete all-zero batch of shape
`(1, 3, 200, 200)`. -/
theorem C6_witness :
    ∃ y, (MyModel.init seedW 3).forward x200 = .ok y ∧ MatShape y 1 3 :=
  (C6_tutorial_happy_path seedW).2.2.2 x200 x200_shape

/-- C7: the tutorial's configuration mapping has exactly the keys `"name"`,
bound to the string `"my_model"`, and `"num_classes"`, bound to an
integer. -/
theorem C7_model_config_contract :
    model_config.map Prod.fst = ["name", "num_classes"] ∧
    Config.get? model_config "name" = some (ConfigValue.str "my_model") ∧
    Config.get? model_config "num_classes" = some (ConfigValue.int 3) := by
  refine ⟨rfl, by decide, by decide⟩

/-- C8: on any batch of shape `(N, 3, H, W)` with `N, H, W ≥ 1`, the forward
pass of a model constructed with `num_classes = n` returns a batch of shape
`(N, n)`. -/
theorem C8_forward_output_shape (seed : Seed) (n N H W : Nat) (x : Tensor4)
    (hN : 1 ≤ N) (hH : 1 ≤ H) (hW : 1 ≤ W) (hx : T4Shape x N 3 H W) :
    ∃ y, (MyModel.init seed (n : Int)).forward x = .ok y ∧ MatShape y N n := by
  rw [forward_init_eq]
  obtain ⟨y, hy, hl, hrows⟩ := linear_forward_init_ok seed (n : Int)
    (x.map fun sample => sample.map fun plane =>
      sliceMean plane 0 plane.length 0 (plane.headD []).length)
    (by intro row hrow
        rw [List.mem_map] at hrow
        obtain ⟨s, hs, rfl⟩ := hrow
        rw [List.length_map]
        exact (hx.2 s hs).1)
  refine ⟨y, hy, ?_, ?_⟩
  · rw [hl, List.length_map, hx.1]
  · intro r hr
    have := hrows r hr
    omega

/-- Witness for C8 at a concrete `1 × 3 × 1 × 1` batch and two classes. -/
theorem C8_witness :
    ∃ y, (MyModel.init seedW ((2 : Nat) : Int)).forward xW3 = .ok y ∧ MatShape y 1 2 :=
  C8_forward_output_shape seedW 2 1 1 1 xW3 (by decide) (by decide) (by decide) (by decide)

/-- C9: the channel count is hardcoded to 3: on any nonempty batch whose
channel dimension `C` differs from 3, the fc layer receives rows of the wrong
length and the forward pass raises the shape-mismatch RuntimeError. -/
theorem C9_forward_channel_mismatch (seed : Seed) (z : Int) (N C H W : Nat) (x : Tensor4)
    (hC : C ≠ 3) (hN : 1 ≤ N) (hx : T4Shape x N C H W) :
    (MyModel.init seed z).forward x = .error PyError.runtimeError := by
  rw [forward_init_eq]
  have hxne : x ≠ [] := by
    intro h0
    rw [h0] at hx
    have h1 := hx.1
    simp only [List.length_nil] at h1
    omega
  obtain ⟨s, hs⟩ := List.exists_mem_of_ne_nil x hxne
  apply linear_forward_init_err seed z _
    (s.map fun plane => sliceMean plane 0 plane.length 0 (plane.headD []).length)
    (List.mem_map_of_mem _ hs)
  rw [List.length_map, (hx.2 s hs).1]
  exact hC

/-- Witness for C9 at a concrete `1 × 2 × 1 × 1` batch. -/
theorem C9_witness :
    (MyModel.init seedW 5).forward xW2 = .error PyError.runtimeError :=
  C9_forward_channel_mismatch seedW 5 1 2 1 1 xW2 (by decide) (by decide) (by decide)

/-- C10: `MyModel.from_config` raises a KeyError exactly when the mapping has
no `"num_classes"` key (the embedding returns no model in that case), and it
never examines the `"name"` field: a `"name"` binding in front of the mapping
does not change its result. -/
theorem C10_from_config_keyError_iff (seed : Seed) (c : Config) :
    (MyModel.from_config seed c = .error PyError.keyError ↔
      Config.get? c "num_classes" = none) ∧
    ∀ v : ConfigValue,
      MyModel.from_config seed (("name", v) :: c) = MyModel.from_config seed c := by
  constructor
  · unfold MyModel.from_config
    cases hg : Config.get? c "num_classes" with
    | none => simp
    | some v => cases v <;> simp [MyModel.callCtor]
  · intro v
    unfold MyModel.from_config
    have hskip : Config.get? (("name", v) :: c) "num_classes" = Config.get? c "num_classes" := by
      simp [Config.get?]
    rw [hskip]
